import Mathlib

/-!
Verification development for the wdk-wallet-ton package.

This file gives a shallow embedding, in Lean 4, of the account, message and
fee logic of the package (src/wallet-account-ton.js and
src/wallet-account-read-only-ton.js), and proves properties of it.

Modelling conventions:
* TON cells are modelled bit-exactly as a list of big-endian bits plus a
  list of referenced child cells; the builder combinators storeUint,
  storeBit, storeCoins, storeAddress, storeRef and storeMaybeRef mirror
  the ton core library used by the source.
* The SHA-256 cell hash of the ton core library is modelled injectively by
  the CellHash wrapper: the properties proved here concern which cell is
  hashed and how that cell is laid out, never a concrete digest value.
* The ledger client (ton center RPC) and the wallet-contract envelope
  construction of the ton library are opaque external collaborators; they
  are modelled as an oracle bundle (structure TonClient) of unconstrained
  functions, universally quantified in the theorems.
* Machine integers: fee components are JS numbers holding integers and are
  modelled as Int; amounts and sequence numbers as Nat; byte buffers as
  List Nat.
* JS exceptions are modelled with Except TonError; a JS value that may be
  undefined is modelled with Option.  Operations that can broadcast return
  the list of transfer cells passed to the send RPC alongside their
  result, so that "no broadcast happened" is a statement of the model.
-/

/-- A big-endian list of n bits of the natural number v, most significant
bit first.  Mirrors how the ton builder writes unsigned integers. -/
def natToBits (v n : Nat) : List Bool :=
  (List.range n).map (fun i => v.testBit (n - 1 - i))

/-- Number of bytes the ton coin encoding uses for an amount: 0 for the
amount 0, otherwise the minimal byte length. -/
def coinBytes (n : Nat) : Nat :=
  if n = 0 then 0 else Nat.log2 n / 8 + 1

/-- Variable-length coin encoding of the ton builder storeCoins: a 4-bit
byte count followed by that many bytes of the amount, big-endian. -/
def coinsBits (n : Nat) : List Bool :=
  natToBits (coinBytes n) 4 ++ natToBits n (8 * coinBytes n)

/-- A ton address: workchain id and 256-bit account hash. -/
structure Address where
  workchain : Int
  hash : Nat
deriving DecidableEq, Repr

/-- Bit layout the ton builder storeAddress writes for a standard internal
address: 2-bit tag with value 2, one anycast bit 0, 8-bit workchain,
256-bit account hash. -/
def addressBits (a : Address) : List Bool :=
  natToBits 2 2 ++ [false] ++ natToBits (a.workchain % 256).toNat 8 ++ natToBits a.hash 256

/-- A ton cell: a bit string plus referenced child cells. -/
inductive Cell where
  | mk (bits : List Bool) (refs : List Cell)

/-- The bit string of a cell. -/
def Cell.bits : Cell → List Bool
  | .mk b _ => b

/-- The referenced child cells of a cell. -/
def Cell.refs : Cell → List Cell
  | .mk _ r => r

/-- The empty cell (Cell.EMPTY in the ton library). -/
def Cell.EMPTY : Cell := .mk [] []

/-- A cell builder, as produced by beginCell in the ton library. -/
structure Builder where
  bits : List Bool
  refs : List Cell

/-- beginCell of the ton library: an empty builder. -/
def beginCell : Builder := ⟨[], []⟩

/-- storeUint of the ton library: append n big-endian bits of v. -/
def Builder.storeUint (b : Builder) (v n : Nat) : Builder :=
  { b with bits := b.bits ++ natToBits v n }

/-- storeBit of the ton library: append one bit. -/
def Builder.storeBit (b : Builder) (bit : Bool) : Builder :=
  { b with bits := b.bits ++ [bit] }

/-- storeCoins of the ton library: append the variable-length coin
encoding of the amount. -/
def Builder.storeCoins (b : Builder) (n : Nat) : Builder :=
  { b with bits := b.bits ++ coinsBits n }

/-- storeAddress of the ton library for a standard internal address. -/
def Builder.storeAddress (b : Builder) (a : Address) : Builder :=
  { b with bits := b.bits ++ addressBits a }

/-- storeRef of the ton library: append a referenced child cell. -/
def Builder.storeRef (b : Builder) (c : Cell) : Builder :=
  { b with refs := b.refs ++ [c] }

/-- storeMaybeRef of the ton library: with no cell it stores a single
false bit, with a cell it stores a true bit and the reference. -/
def Builder.storeMaybeRef (b : Builder) (c : Option Cell) : Builder :=
  match c with
  | none => b.storeBit false
  | some cell => (b.storeBit true).storeRef cell

/-- endCell of the ton library: freeze the builder into a cell. -/
def Builder.endCell (b : Builder) : Cell := .mk b.bits b.refs

/-- The SHA-256 cell hash, modelled injectively: the wrapped value records
which cell was hashed.  The properties in this file are about which cell
is hashed, never about digest bytes. -/
structure CellHash where
  cell : Cell

/-- The hash method of the ton cell class. -/
def Cell.cellHash (c : Cell) : CellHash := ⟨c⟩

/-- The message class tag carried in message.info.type of the ton
library: internal, or external-in. -/
inductive MsgType where
  | internal
  | externalIn
deriving DecidableEq, Repr

/-- The common message info of a relaxed ton message, restricted to the
fields the source reads: the class tag, destination, value in nanotons
and the bounce flag. -/
structure MsgInfo where
  type : MsgType
  dest : Address
  value : Nat
  bounce : Bool
deriving DecidableEq, Repr

/-- A relaxed ton message: info plus body cell. -/
structure MessageRelaxed where
  info : MsgInfo
  body : Cell

/-- The internal helper of the ton library: builds a message whose info
type is internal, with the given destination, value, bounce flag and
body cell. -/
def internal (dest : Address) (value : Nat) (bounce : Bool) (body : Cell) : MessageRelaxed :=
  ⟨⟨.internal, dest, value, bounce⟩, body⟩

/-- A JS Error, carrying its message string. -/
structure TonError where
  message : String
deriving DecidableEq, Repr

/-- The byte buffer a JS Uint8Array coercion yields: an absent value
coerces to an empty array. -/
def uint8Of : Option (List Nat) → List Nat
  | none => []
  | some k => k

/-- The sign primitive of the ton crypto library: delegates to the nacl
detached signature, which throws the key-size error when the (coerced)
secret key is not 64 bytes long.  The signature bytes themselves are
irrelevant to every property proved here and are modelled by an
unspecified total function of message and key. -/
def tonCryptoSign (msg : List Nat) (secretKey : Option (List Nat)) : Except TonError (List Nat) :=
  let sk := uint8Of secretKey
  if sk.length = 64 then .ok (msg ++ sk) else .error ⟨"bad secret key size"⟩

/-- The sodium memzero primitive of the sodium library used by the
source: zeroes a byte buffer in place; both of its backends reject a
non-buffer argument with a thrown type error. -/
def sodiumMemzero : Option (List Nat) → Except TonError (List Nat)
  | some buf => .ok (List.replicate buf.length 0)
  | none => .error ⟨"buf must be a buffer"⟩

/-- JS substring containment, modelling the string includes method. -/
def strIncludes (s sub : String) : Bool :=
  (s.data.tails).any (fun t => sub.data.isPrefixOf t)

/-- The aggregate fee record of the ton center fee-simulation RPC
(source_fees): the four fee components, JS numbers holding integers. -/
structure SourceFees where
  in_fwd_fee : Int
  storage_fee : Int
  gas_fee : Int
  fwd_fee : Int
deriving DecidableEq, Repr

/-- The on-chain contract state returned by the ton client
getContractState RPC, restricted to the fields the source reads: the raw
code and data buffers, absent when the account is uninitialized. -/
structure ContractState where
  code : Option (List Nat)
  data : Option (List Nat)
deriving DecidableEq, Repr

/-- The request object the source passes to the ton client fee-simulation
RPC estimateExternalMessageFee: the account address, the serialized
transfer body, and the optional deploy code and init data cells. -/
structure FeeRequest where
  address : Address
  body : Cell
  initCode : Option Cell
  initData : Option Cell

/-- The argument record of the wallet-contract createTransfer method,
after the secret key has been coerced to a byte array: secret key bytes,
send-mode bitmask, messages, and sequence number. -/
structure CreateTransferArgs where
  secretKey : List Nat
  sendMode : Nat
  messages : List MessageRelaxed
  seqno : Nat

/-- The external collaborators of the account, bundled as an oracle of
unconstrained functions: the ton center ledger client (sequence number,
contract state, fee simulation, get-method calls) together with the
wallet-contract envelope construction of the ton library (the signed
transfer cell built by createTransfer, abstracted as a function of its
arguments; the key-length guard of the signing primitive is kept explicit
in the embedding, see WalletContractV5R1.createTransfer). -/
structure TonClient where
  seqno : Nat
  contractState : ContractState
  estimateExternalMessageFee : FeeRequest → SourceFees
  getWalletAddress : Address → Cell → Except TonError Address
  getWalletData : Address → Except TonError Int
  createTransferCell : CreateTransferArgs → Cell

/-- The mutable key state of a signing account.  The JS account holds a
key-pair object whose secretKey field aliases a heap buffer; dispose
zeroes the buffer in place and then clears the field.  The model keeps
the buffer contents and a flag recording whether the field is present. -/
structure AccountState where
  walletAddress : Address
  publicKey : List Nat
  secretBuffer : List Nat
  secretPresent : Bool

/-- The secretKey field of the JS key pair: the buffer when present,
undefined after disposal. -/
def AccountState.secretKey (acct : AccountState) : Option (List Nat) :=
  if acct.secretPresent then some acct.secretBuffer else none

/-- The wallet account configuration, restricted to the field the
embedded operations read: the optional maximum transfer fee.  none models
a transferMaxFee that is undefined (or null, which the loose inequality
of the source also treats as unset). -/
structure TonWalletConfig where
  transferMaxFee : Option Int
deriving DecidableEq, Repr

/-- The result record of sendTransaction and transfer: message hash and
fee. -/
structure TransactionResult where
  hash : CellHash
  fee : Int

/-- The result record of the quote operations: the fee only. -/
structure QuoteResult where
  fee : Int
deriving DecidableEq, Repr

/-- createTransfer of the ton wallet contract class: signs the envelope
with the given secret key and returns the transfer cell.  The ton crypto
signing primitive inside it throws the key-size error when the coerced
secret key is not 64 bytes long (an absent key coerces to an empty
array); otherwise the built cell is given by the oracle. -/
def WalletContractV5R1.createTransfer (client : TonClient) (secretKey : Option (List Nat))
    (sendMode : Nat) (messages : List MessageRelaxed) (seqno : Nat) : Except TonError Cell :=
  let sk := uint8Of secretKey
  if sk.length = 64 then .ok (client.createTransferCell ⟨sk, sendMode, messages, seqno⟩)
  else .error ⟨"bad secret key size"⟩

/-- SendMode.PAY_GAS_SEPARATELY + SendMode.IGNORE_ERRORS of the ton
library: 1 + 2. -/
def SEND_MODE : Nat := 1 + 2

/-- The DUMMY_MESSAGE_VALUE constant of the source: toNano(0.05), in
nanotons. -/
def DUMMY_MESSAGE_VALUE : Nat := 50000000

/-- The SECRET_KEY_NULL constant of the source: Buffer.alloc(64), an
all-zero 64-byte buffer. -/
def SECRET_KEY_NULL : List Nat := List.replicate 64 0

/-- The body cell the ton internal helper builds for the string body
"Transfer" of a native transfer: a 32-bit zero comment tag followed by
the ASCII bytes of the string. -/
def transferCommentCell : Cell :=
  .mk (natToBits 0 32 ++ ([84, 114, 97, 110, 115, 102, 101, 114].flatMap (natToBits · 8))) []

/-- A native transaction request: recipient address (with the
bounceability its textual encoding implied, as recovered by the friendly
address parser), value in nanotons, and the optional bounceable
override. -/
structure TonTransaction where
  dest : Address
  toIsBounceable : Bool
  value : Nat
  bounceable : Option Bool

/-- A token transfer request: token master address, recipient address and
token amount (addresses already parsed from their textual forms). -/
structure TransferOptions where
  token : Address
  recipient : Address
  amount : Nat

/-- The deploy code of the v5r1 wallet contract, the first cell
deserialized from the WALLET_CONTRACT_V5R1_INIT_CODE bag-of-cells
constant of the source.  The contract bytecode itself is opaque to every
property proved here; the cell is represented by the 32-bit
bag-of-cells magic prefix of that constant as an identifying bit
string. -/
def walletV5InitCodeCell : Cell := .mk (natToBits 0xb5ee9c72 32) []

namespace WalletAccountReadOnlyTon

/-- _getJettonWalletAddress of the read-only account: calls the token
master contract's get_wallet_address get-method through the ledger
client, passing the account's own address stored in a slice cell. -/
def _getJettonWalletAddress (client : TonClient) (self : Address) (tokenAddress : Address) :
    Except TonError Address :=
  client.getWalletAddress tokenAddress ((beginCell.storeAddress self).endCell)

/-- The try-block of getTokenBalance: resolve the jetton wallet address,
then read the balance from its get_wallet_data get-method. -/
def tokenBalanceAttempt (client : TonClient) (self : Address) (tokenAddress : Address) :
    Except TonError Int :=
  match _getJettonWalletAddress client self tokenAddress with
  | .error e => .error e
  | .ok jettonWalletAddress => client.getWalletData jettonWalletAddress

/-- getTokenBalance of the read-only account: requires a connected
client; wraps the resolution and balance read in a catch that turns an
error whose message mentions exit code -13 (account not active) into a
zero balance and rethrows every other error. -/
def getTokenBalance (tonClient : Option TonClient) (self : Address) (tokenAddress : Address) :
    Except TonError Int :=
  match tonClient with
  | none => .error ⟨"The wallet must be connected to ton center to get token balances."⟩
  | some client =>
    match tokenBalanceAttempt client self tokenAddress with
    | .ok balance => .ok balance
    | .error e => if strIncludes e.message "exit_code: -13" then .ok 0 else .error e

/-- _getTransactionMessage of the read-only account: builds the internal
message for a native transaction, with bounce defaulting to the
bounceability of the recipient's textual encoding and the fixed string
body "Transfer". -/
def _getTransactionMessage (tx : TonTransaction) : MessageRelaxed :=
  internal tx.dest tx.value (tx.bounceable.getD tx.toIsBounceable) transferCommentCell

/-- _getTokenTransferMessage of the read-only account: resolves the
sender's jetton wallet address, serializes the token-transfer body
(opcode 0x0f8a7ea5, 64-bit query id 0, amount, recipient, response
destination, false bit, forward fee 1, empty maybe-ref), and wraps it in
an internal message to the jetton wallet with the dummy value and
bounce true. -/
def _getTokenTransferMessage (client : TonClient) (self : Address) (options : TransferOptions) :
    Except TonError MessageRelaxed :=
  match _getJettonWalletAddress client self options.token with
  | .error e => .error e
  | .ok jettonWalletAddress =>
    .ok (internal jettonWalletAddress DUMMY_MESSAGE_VALUE true
      (((((((((beginCell.storeUint 0x0f8a7ea5 32).storeUint 0 64).storeCoins
        options.amount).storeAddress options.recipient).storeAddress
        self).storeBit false).storeCoins 1).storeMaybeRef none).endCell))

/-- _getTransfer of the read-only account: fetches the current sequence
number and builds the signed envelope with the fixed null secret key. -/
def _getTransfer (client : TonClient) (message : MessageRelaxed) : Except TonError Cell :=
  WalletContractV5R1.createTransfer client (some SECRET_KEY_NULL) SEND_MODE [message] client.seqno

/-- The request object _getTransferFee passes to the fee-simulation RPC:
the transfer body, the wallet deploy code when the on-chain state has no
code, and the empty cell as init data when it has no data. -/
def feeRequest (client : TonClient) (self : Address) (transfer : Cell) : FeeRequest :=
  { address := self
    body := transfer
    initCode := if client.contractState.code = none then some walletV5InitCodeCell else none
    initData := if client.contractState.data = none then some Cell.EMPTY else none }

/-- _getTransferFee of the read-only account: reads the contract state,
calls the fee-simulation RPC with the request above, and sums the four
fee components. -/
def _getTransferFee (client : TonClient) (self : Address) (transfer : Cell) : Int :=
  let f := client.estimateExternalMessageFee (feeRequest client self transfer)
  f.in_fwd_fee + f.storage_fee + f.gas_fee + f.fwd_fee

/-- quoteSendTransaction as executed on a read-only account instance,
where the method call this._getTransfer resolves to the null-key base
implementation: requires a connected client; builds the native message,
the null-key envelope and the fee, and returns the fee record only.  On
a signing account instance the same inherited method body dispatches to
the overridden _getTransfer; that case is
WalletAccountTon.quoteSendTransaction below.  The second component is
the list of transfer cells handed to the send RPC: always empty here. -/
def quoteSendTransaction (tonClient : Option TonClient) (self : Address) (tx : TonTransaction) :
    Except TonError QuoteResult × List Cell :=
  match tonClient with
  | none => (.error ⟨"The wallet must be connected to ton center to quote send transaction operations."⟩, [])
  | some client =>
    let message := _getTransactionMessage tx
    match _getTransfer client message with
    | .error e => (.error e, [])
    | .ok transfer => (.ok ⟨_getTransferFee client self transfer⟩, [])

end WalletAccountReadOnlyTon

namespace WalletAccountTon

/-- sign of the signing account: signs the message bytes with the key
pair's secret key through the ton crypto primitive. -/
def sign (acct : AccountState) (message : List Nat) : Except TonError (List Nat) :=
  tonCryptoSign message acct.secretKey

/-- dispose of the signing account: zeroes the secret key buffer through
sodium memzero, then clears the secret key field. -/
def dispose (acct : AccountState) : Except TonError AccountState :=
  match sodiumMemzero acct.secretKey with
  | .error e => .error e
  | .ok zeroed => .ok { acct with secretBuffer := zeroed, secretPresent := false }

/-- _getTransfer of the signing account: fetches the current sequence
number and builds the signed envelope with the account's real secret
key. -/
def _getTransfer (client : TonClient) (acct : AccountState) (message : MessageRelaxed) :
    Except TonError Cell :=
  WalletContractV5R1.createTransfer client acct.secretKey SEND_MODE [message] client.seqno

/-- quoteSendTransaction as executed on a signing account: the signing
class does not override the method, so the inherited base body runs with
this bound to the signing instance, and its this._getTransfer call
dynamically dispatches to the signing override above, which signs the
fee-quote envelope with the account's real secret key. -/
def quoteSendTransaction (tonClient : Option TonClient) (acct : AccountState)
    (tx : TonTransaction) : Except TonError QuoteResult × List Cell :=
  match tonClient with
  | none => (.error ⟨"The wallet must be connected to ton center to quote send transaction operations."⟩, [])
  | some client =>
    let message := WalletAccountReadOnlyTon._getTransactionMessage tx
    match _getTransfer client acct message with
    | .error e => (.error e, [])
    | .ok transfer =>
      (.ok ⟨WalletAccountReadOnlyTon._getTransferFee client acct.walletAddress transfer⟩, [])

/-- _getMessageHash of the signing account: for an internal message, the
hash of the body cell alone; otherwise the hash of the reconstructed
external-in cell (2-bit tag 2, 2-bit zero source tag, destination
address, 4-bit zero import fee, false state-init bit, true
body-as-reference bit, body as referenced cell). -/
def _getMessageHash (message : MessageRelaxed) : CellHash :=
  if message.info.type = .internal then
    message.body.cellHash
  else
    ((((((((beginCell.storeUint 2 2).storeUint 0 2).storeAddress
      message.info.dest).storeUint 0 4).storeBit false).storeBit
      true).storeRef message.body).endCell).cellHash

/-- sendTransaction of the signing account: requires a connected client;
builds the native message, the real-key envelope and the fee, then
broadcasts and returns hash and fee.  No maximum-fee check appears on
this path in the source.  The second component is the list of transfer
cells handed to the send RPC. -/
def sendTransaction (_cfg : TonWalletConfig) (tonClient : Option TonClient) (acct : AccountState)
    (tx : TonTransaction) : Except TonError TransactionResult × List Cell :=
  match tonClient with
  | none => (.error ⟨"The wallet must be connected to ton center to send transactions."⟩, [])
  | some client =>
    let message := WalletAccountReadOnlyTon._getTransactionMessage tx
    match _getTransfer client acct message with
    | .error e => (.error e, [])
    | .ok transfer =>
      let fee := WalletAccountReadOnlyTon._getTransferFee client acct.walletAddress transfer
      (.ok ⟨_getMessageHash message, fee⟩, [transfer])

/-- transfer of the signing account: requires a connected client; builds
the token-transfer message, the real-key envelope and the fee; when the
configuration sets transferMaxFee and the fee reaches it, throws the
exceeded-maximum-fee error before any broadcast; otherwise broadcasts
and returns hash and fee. -/
def transfer (cfg : TonWalletConfig) (tonClient : Option TonClient) (acct : AccountState)
    (options : TransferOptions) : Except TonError TransactionResult × List Cell :=
  match tonClient with
  | none => (.error ⟨"The wallet must be connected to ton center to transfer tokens."⟩, [])
  | some client =>
    match WalletAccountReadOnlyTon._getTokenTransferMessage client acct.walletAddress options with
    | .error e => (.error e, [])
    | .ok message =>
      match _getTransfer client acct message with
      | .error e => (.error e, [])
      | .ok transfer =>
        let fee := WalletAccountReadOnlyTon._getTransferFee client acct.walletAddress transfer
        match cfg.transferMaxFee with
        | some cap =>
          if fee ≥ cap then
            (.error ⟨"Exceeded maximum fee cost for transfer operations."⟩, [])
          else
            (.ok ⟨_getMessageHash message, fee⟩, [transfer])
        | none => (.ok ⟨_getMessageHash message, fee⟩, [transfer])

end WalletAccountTon

/-! Concrete scenario used by the witnesses: four distinct addresses, a
funded account with a present 64-byte secret key, and a ledger client
whose fee simulation prices every request at 1 + 2 + 3 + 4 = 10. -/

/-- The account's own wallet address in the concrete scenario. -/
def demoSelf : Address := ⟨0, 1⟩

/-- The recipient address in the concrete scenario. -/
def demoRecipient : Address := ⟨0, 2⟩

/-- The resolved jetton wallet address in the concrete scenario. -/
def demoJetton : Address := ⟨0, 3⟩

/-- The jetton master (token) address in the concrete scenario. -/
def demoToken : Address := ⟨0, 4⟩

/-- A concrete ledger client: seqno 5, uninitialized contract state, fee
components 1, 2, 3 and 4, jetton resolution to demoJetton, stored token
balance 777, and the empty cell as the built envelope. -/
def demoClient : TonClient :=
  { seqno := 5
    contractState := ⟨none, none⟩
    estimateExternalMessageFee := fun _ => ⟨1, 2, 3, 4⟩
    getWalletAddress := fun _ _ => .ok demoJetton
    getWalletData := fun _ => .ok 777
    createTransferCell := fun _ => Cell.EMPTY }

/-- A concrete account whose 64-byte secret key is still present. -/
def demoAcct : AccountState := ⟨demoSelf, List.replicate 32 7, List.replicate 64 9, true⟩

/-- A concrete native transaction request. -/
def demoTx : TonTransaction := ⟨demoRecipient, true, 1000, none⟩

/-- A concrete token transfer request. -/
def demoOptions : TransferOptions := ⟨demoToken, demoRecipient, 22222⟩

/-- A second, different token transfer request. -/
def demoOptions2 : TransferOptions := ⟨demoToken, demoSelf, 99999⟩

/-- The token-transfer body cell the embedding builds for demoOptions. -/
def demoTokenBody : Cell :=
  ((((((((beginCell.storeUint 0x0f8a7ea5 32).storeUint 0 64).storeCoins
    22222).storeAddress demoRecipient).storeAddress
    demoSelf).storeBit false).storeCoins 1).storeMaybeRef none).endCell

/-- A client that makes the signing key observable: the built envelope
cell carries one bit recording whether the all-zero null key signed it,
and the fee simulation prices a null-key envelope at 1 and any other
envelope at 2. -/
def demoKeyProbeClient : TonClient :=
  { demoClient with
    createTransferCell := fun args => .mk [decide (args.secretKey = SECRET_KEY_NULL)] []
    estimateExternalMessageFee := fun req =>
      if req.body.bits = [true] then ⟨1, 0, 0, 0⟩ else ⟨2, 0, 0, 0⟩ }

example : WalletAccountReadOnlyTon._getTokenTransferMessage demoClient demoSelf demoOptions =
    .ok (internal demoJetton DUMMY_MESSAGE_VALUE true demoTokenBody) := rfl

example : WalletAccountTon.transfer ⟨some 0⟩ (some demoClient) demoAcct demoOptions =
    (.error ⟨"Exceeded maximum fee cost for transfer operations."⟩, []) := rfl

example : WalletAccountTon.sendTransaction ⟨some 0⟩ (some demoClient) demoAcct demoTx =
    (.ok ⟨CellHash.mk transferCommentCell, 10⟩, [Cell.EMPTY]) := rfl

/-- C1: for every token transfer on an account whose configuration sets
transferMaxFee (including a cap of 0), if the estimated fee is greater
than or equal to the cap then transfer throws the exceeded-maximum-fee
error and nothing is handed to the send RPC (the broadcast list is
empty, so on-chain state is unchanged). -/
theorem transfer_exceeds_max_fee_throws_before_broadcast
    (cfg : TonWalletConfig) (client : TonClient) (acct : AccountState)
    (options : TransferOptions) (cap : Int) (message : MessageRelaxed) (envelope : Cell)
    (hcap : cfg.transferMaxFee = some cap)
    (hmsg : WalletAccountReadOnlyTon._getTokenTransferMessage client acct.walletAddress options =
      .ok message)
    (henv : WalletAccountTon._getTransfer client acct message = .ok envelope)
    (hfee : WalletAccountReadOnlyTon._getTransferFee client acct.walletAddress envelope ≥ cap) :
    WalletAccountTon.transfer cfg (some client) acct options =
      (.error ⟨"Exceeded maximum fee cost for transfer operations."⟩, []) := by
  simp [WalletAccountTon.transfer, hmsg, henv, hcap, hfee]

/-- Witness for C1 at the concrete scenario: cap 0, estimated fee 10. -/
theorem transfer_exceeds_max_fee_throws_before_broadcast_witness :
    WalletAccountTon.transfer ⟨some 0⟩ (some demoClient) demoAcct demoOptions =
      (.error ⟨"Exceeded maximum fee cost for transfer operations."⟩, []) :=
  transfer_exceeds_max_fee_throws_before_broadcast ⟨some 0⟩ demoClient demoAcct demoOptions 0
    (internal demoJetton DUMMY_MESSAGE_VALUE true demoTokenBody) Cell.EMPTY
    rfl rfl rfl (by decide)

/-- C2 counterexample: with a configured cap of 0 and an estimated fee of
10, sendTransaction does not abort with the exceeded-maximum-fee error:
it returns a successful result and one envelope is handed to the send
RPC. -/
theorem sendTransaction_ignores_max_fee_cex :
    WalletAccountTon.sendTransaction ⟨some 0⟩ (some demoClient) demoAcct demoTx =
      (.ok ⟨CellHash.mk transferCommentCell, 10⟩, [Cell.EMPTY]) := rfl

/-- C2 amended: sendTransaction performs no maximum-fee check at all: for
every configuration (any transferMaxFee), once the signed envelope is
built it broadcasts exactly once and returns the hash and the fee; the
configuration does not occur in the result. -/
theorem sendTransaction_no_max_fee_check
    (cfg : TonWalletConfig) (client : TonClient) (acct : AccountState)
    (tx : TonTransaction) (envelope : Cell)
    (henv : WalletAccountTon._getTransfer client acct
      (WalletAccountReadOnlyTon._getTransactionMessage tx) = .ok envelope) :
    WalletAccountTon.sendTransaction cfg (some client) acct tx =
      (.ok ⟨WalletAccountTon._getMessageHash (WalletAccountReadOnlyTon._getTransactionMessage tx),
            WalletAccountReadOnlyTon._getTransferFee client acct.walletAddress envelope⟩,
       [envelope]) := by
  simp [WalletAccountTon.sendTransaction, henv]

/-- Witness for the amended C2 at the concrete scenario. -/
theorem sendTransaction_no_max_fee_check_witness :
    WalletAccountTon.sendTransaction ⟨some 0⟩ (some demoClient) demoAcct demoTx =
      (.ok ⟨WalletAccountTon._getMessageHash
              (WalletAccountReadOnlyTon._getTransactionMessage demoTx),
            WalletAccountReadOnlyTon._getTransferFee demoClient demoAcct.walletAddress
              Cell.EMPTY⟩,
       [Cell.EMPTY]) :=
  sendTransaction_no_max_fee_check ⟨some 0⟩ demoClient demoAcct demoTx Cell.EMPTY rfl

/-- C3: the canonical hash returns the hash of the body cell alone for an
internal message, and otherwise the hash of the reconstructed cell whose
bit string is the 2-bit tag 2, a 2-bit zero source tag, the destination
address, a 4-bit zero import fee, a false state-init bit and a true
body-as-reference bit, with the body as its single referenced cell. -/
theorem getMessageHash_canonical (m : MessageRelaxed) :
    (m.info.type = .internal → WalletAccountTon._getMessageHash m = m.body.cellHash) ∧
    (m.info.type ≠ .internal →
      WalletAccountTon._getMessageHash m =
        CellHash.mk (.mk (natToBits 2 2 ++ natToBits 0 2 ++ addressBits m.info.dest ++
          natToBits 0 4 ++ [false] ++ [true]) [m.body])) := by
  constructor
  · intro h
    simp [WalletAccountTon._getMessageHash, h]
  · intro h
    simp [WalletAccountTon._getMessageHash, h, beginCell, Builder.storeUint,
      Builder.storeAddress, Builder.storeBit, Builder.storeRef, Builder.endCell, Cell.cellHash]

/-- A concrete internal message. -/
def demoInternalMsg : MessageRelaxed := internal demoRecipient 5 true Cell.EMPTY

/-- A concrete external-in message. -/
def demoExternalMsg : MessageRelaxed := ⟨⟨.externalIn, demoRecipient, 0, false⟩, transferCommentCell⟩

/-- Witness for C3 at one internal and one external-in message. -/
theorem getMessageHash_canonical_witness :
    WalletAccountTon._getMessageHash demoInternalMsg = Cell.EMPTY.cellHash ∧
    WalletAccountTon._getMessageHash demoExternalMsg =
      CellHash.mk (.mk (natToBits 2 2 ++ natToBits 0 2 ++ addressBits demoRecipient ++
        natToBits 0 4 ++ [false] ++ [true]) [transferCommentCell]) :=
  ⟨(getMessageHash_canonical demoInternalMsg).1 rfl,
   (getMessageHash_canonical demoExternalMsg).2 (by decide)⟩

/-- C4: when the sender's jetton wallet resolves, the token-transfer body
cell is, in this order and with no referenced cells: the 32-bit opcode
0x0f8a7ea5, a 64-bit query id (the constant 0), the coin-encoded amount,
the recipient address, the sender's own address as response destination,
one false bit, the coin-encoded forward fee 1, and a false bit for the
empty optional reference; the body is wrapped in an internal message to
the resolved jetton wallet address with value 50000000 nanotons (0.05
ton) and bounce true. -/
theorem getTokenTransferMessage_layout
    (client : TonClient) (self : Address) (options : TransferOptions) (jw : Address)
    (hjw : WalletAccountReadOnlyTon._getJettonWalletAddress client self options.token = .ok jw) :
    WalletAccountReadOnlyTon._getTokenTransferMessage client self options =
      .ok ⟨⟨.internal, jw, 50000000, true⟩,
           .mk (natToBits 0x0f8a7ea5 32 ++ natToBits 0 64 ++ coinsBits options.amount ++
                addressBits options.recipient ++ addressBits self ++ [false] ++
                coinsBits 1 ++ [false]) []⟩ := by
  simp [WalletAccountReadOnlyTon._getTokenTransferMessage, hjw, internal, DUMMY_MESSAGE_VALUE,
    beginCell, Builder.storeUint, Builder.storeCoins, Builder.storeAddress, Builder.storeBit,
    Builder.storeMaybeRef, Builder.endCell]

/-- Witness for C4 at the concrete scenario. -/
theorem getTokenTransferMessage_layout_witness :
    WalletAccountReadOnlyTon._getTokenTransferMessage demoClient demoSelf demoOptions =
      .ok ⟨⟨.internal, demoJetton, 50000000, true⟩,
           .mk (natToBits 0x0f8a7ea5 32 ++ natToBits 0 64 ++ coinsBits 22222 ++
                addressBits demoRecipient ++ addressBits demoSelf ++ [false] ++
                coinsBits 1 ++ [false]) []⟩ :=
  getTokenTransferMessage_layout demoClient demoSelf demoOptions demoJetton rfl

/-- C5: the estimated fee is the exact integer sum of the four components
the ledger client's fee simulation returns for the issued request, and
that request carries the wallet deploy code as initCode exactly when the
on-chain state has no code, and the empty cell as initData exactly when
it has no data. -/
theorem getTransferFee_components_and_init
    (client : TonClient) (self : Address) (envelope : Cell) :
    WalletAccountReadOnlyTon._getTransferFee client self envelope =
      (client.estimateExternalMessageFee
        (WalletAccountReadOnlyTon.feeRequest client self envelope)).in_fwd_fee +
      (client.estimateExternalMessageFee
        (WalletAccountReadOnlyTon.feeRequest client self envelope)).storage_fee +
      (client.estimateExternalMessageFee
        (WalletAccountReadOnlyTon.feeRequest client self envelope)).gas_fee +
      (client.estimateExternalMessageFee
        (WalletAccountReadOnlyTon.feeRequest client self envelope)).fwd_fee ∧
    ((WalletAccountReadOnlyTon.feeRequest client self envelope).initCode =
        some walletV5InitCodeCell ↔ client.contractState.code = none) ∧
    ((WalletAccountReadOnlyTon.feeRequest client self envelope).initData =
        some Cell.EMPTY ↔ client.contractState.data = none) := by
  refine ⟨rfl, ?_, ?_⟩
  · rcases h : client.contractState.code with _ | c <;>
      simp [WalletAccountReadOnlyTon.feeRequest, h]
  · rcases h : client.contractState.data with _ | d <;>
      simp [WalletAccountReadOnlyTon.feeRequest, h]

/-- C6 counterexample: on a signing account the fee-quote envelope is
signed with the account's real key, not the null key.  With the probing
client, which prices a null-key envelope at 1 and any other at 2, the
signing account's quote fee is 2 while the read-only account's quote of
the same transaction is 1: the quote was not produced from a null-key
envelope. -/
theorem quoteSendTransaction_real_key_cex :
    WalletAccountTon.quoteSendTransaction (some demoKeyProbeClient) demoAcct demoTx =
      (.ok ⟨2⟩, ([] : List Cell)) ∧
    WalletAccountReadOnlyTon.quoteSendTransaction (some demoKeyProbeClient) demoSelf demoTx =
      (.ok ⟨1⟩, ([] : List Cell)) :=
  ⟨rfl, rfl⟩

/-- C6 amended: quoteSendTransaction returns only the fee record and
hands nothing to the send RPC on either receiver; on a read-only account
the priced envelope is built from the all-zero 64-byte null key, but on
a signing account the inherited method dispatches to the overridden
envelope builder and prices an envelope signed with the account's real
secret key. -/
theorem quoteSendTransaction_quote_only_key_dispatch
    (client : TonClient) (self : Address) (acct : AccountState) (tx : TonTransaction)
    (hpresent : acct.secretPresent = true) (hkey : acct.secretBuffer.length = 64) :
    WalletAccountReadOnlyTon.quoteSendTransaction (some client) self tx =
      (.ok ⟨WalletAccountReadOnlyTon._getTransferFee client self
              (client.createTransferCell
                ⟨List.replicate 64 0, SEND_MODE,
                 [WalletAccountReadOnlyTon._getTransactionMessage tx], client.seqno⟩)⟩,
       ([] : List Cell)) ∧
    WalletAccountTon.quoteSendTransaction (some client) acct tx =
      (.ok ⟨WalletAccountReadOnlyTon._getTransferFee client acct.walletAddress
              (client.createTransferCell
                ⟨acct.secretBuffer, SEND_MODE,
                 [WalletAccountReadOnlyTon._getTransactionMessage tx], client.seqno⟩)⟩,
       ([] : List Cell)) := by
  constructor
  · simp [WalletAccountReadOnlyTon.quoteSendTransaction, WalletAccountReadOnlyTon._getTransfer,
      WalletContractV5R1.createTransfer, SECRET_KEY_NULL, uint8Of]
  · simp [WalletAccountTon.quoteSendTransaction, WalletAccountTon._getTransfer,
      WalletContractV5R1.createTransfer, AccountState.secretKey, hpresent, hkey, uint8Of]

/-- Witness for the amended C6 at the concrete scenario: the signing
account's quote prices the envelope built from its real key. -/
theorem quoteSendTransaction_quote_only_key_dispatch_witness :
    WalletAccountTon.quoteSendTransaction (some demoClient) demoAcct demoTx =
      (.ok ⟨10⟩, ([] : List Cell)) :=
  (quoteSendTransaction_quote_only_key_dispatch demoClient demoSelf demoAcct demoTx
    rfl rfl).2

/-- C7 counterexample: calling dispose a second time throws (the memzero
primitive rejects the now-absent key buffer), so disposal is not
idempotent as claimed. -/
theorem dispose_not_idempotent_cex :
    (WalletAccountTon.dispose demoAcct).bind WalletAccountTon.dispose =
      .error ⟨"buf must be a buffer"⟩ := rfl

/-- C7 amended: after dispose the private key buffer is zeroed and the
secret-key component is absent, and every subsequent sign,
sendTransaction or transfer call fails with the key-size error; but a
second dispose call throws a type error instead of being a no-op. -/
theorem dispose_semantics (acct : AccountState) (h : acct.secretPresent = true) :
    WalletAccountTon.dispose acct =
      .ok { acct with secretBuffer := List.replicate acct.secretBuffer.length 0,
                      secretPresent := false } ∧
    ∀ d, WalletAccountTon.dispose acct = .ok d →
      (d.secretKey = none ∧
       d.secretBuffer = List.replicate acct.secretBuffer.length 0 ∧
       (∀ msg, WalletAccountTon.sign d msg = .error ⟨"bad secret key size"⟩) ∧
       (∀ cfg client tx, WalletAccountTon.sendTransaction cfg (some client) d tx =
          (.error ⟨"bad secret key size"⟩, [])) ∧
       (∀ cfg client options message,
          WalletAccountReadOnlyTon._getTokenTransferMessage client d.walletAddress options =
            .ok message →
          WalletAccountTon.transfer cfg (some client) d options =
            (.error ⟨"bad secret key size"⟩, [])) ∧
       WalletAccountTon.dispose d = .error ⟨"buf must be a buffer"⟩) := by
  have hd1 : WalletAccountTon.dispose acct =
      .ok { acct with secretBuffer := List.replicate acct.secretBuffer.length 0,
                      secretPresent := false } := by
    simp [WalletAccountTon.dispose, sodiumMemzero, AccountState.secretKey, h]
  refine ⟨hd1, ?_⟩
  intro d hd
  rw [hd1] at hd
  injection hd with hd
  subst hd
  refine ⟨by simp [AccountState.secretKey], rfl, ?_, ?_, ?_, ?_⟩
  · intro msg
    simp [WalletAccountTon.sign, tonCryptoSign, AccountState.secretKey, uint8Of]
  · intro cfg client tx
    simp [WalletAccountTon.sendTransaction, WalletAccountTon._getTransfer,
      WalletContractV5R1.createTransfer, AccountState.secretKey, uint8Of]
  · intro cfg client options message hmsg
    simp [WalletAccountTon.transfer, hmsg, WalletAccountTon._getTransfer,
      WalletContractV5R1.createTransfer, AccountState.secretKey, uint8Of]
  · simp [WalletAccountTon.dispose, sodiumMemzero, AccountState.secretKey]

/-- Witness for the amended C7: signing with the concrete disposed
account fails with the key-size error. -/
theorem dispose_semantics_witness :
    WalletAccountTon.sign
      { demoAcct with secretBuffer := List.replicate 64 0, secretPresent := false } [1, 2, 3] =
      .error ⟨"bad secret key size"⟩ := by
  have hall := dispose_semantics demoAcct rfl
  exact (hall.2 _ hall.1).2.2.1 [1, 2, 3]

/-- C8: getTokenBalance returns the stored balance when both ledger calls
succeed; when the query chain fails with an error whose message carries
the exit code -13 marker (account not active on-chain) it returns 0, and
it propagates every other ledger failure unchanged. -/
theorem getTokenBalance_missing_account_is_zero
    (client : TonClient) (self : Address) (tokenAddress : Address) :
    (∀ balance,
        WalletAccountReadOnlyTon.tokenBalanceAttempt client self tokenAddress = .ok balance →
        WalletAccountReadOnlyTon.getTokenBalance (some client) self tokenAddress =
          .ok balance) ∧
    (∀ e, WalletAccountReadOnlyTon.tokenBalanceAttempt client self tokenAddress = .error e →
        WalletAccountReadOnlyTon.getTokenBalance (some client) self tokenAddress =
          if strIncludes e.message "exit_code: -13" then .ok 0 else .error e) := by
  constructor <;> intro x hx <;> simp [WalletAccountReadOnlyTon.getTokenBalance, hx]

/-- A client whose balance read fails because the token account is not
active on-chain. -/
def demoMissingClient : TonClient :=
  { demoClient with
    getWalletData := fun _ =>
      .error ⟨"Unable to execute get method. Got exit_code: -13"⟩ }

/-- A client whose balance read fails for an unrelated reason. -/
def demoFailingClient : TonClient :=
  { demoClient with getWalletData := fun _ => .error ⟨"network timeout"⟩ }

/-- Witness for C8: the missing-account failure yields balance 0, the
unrelated failure propagates unchanged. -/
theorem getTokenBalance_missing_account_is_zero_witness :
    WalletAccountReadOnlyTon.getTokenBalance (some demoMissingClient) demoSelf demoToken =
      .ok 0 ∧
    WalletAccountReadOnlyTon.getTokenBalance (some demoFailingClient) demoSelf demoToken =
      .error ⟨"network timeout"⟩ := by
  constructor
  · have hz := (getTokenBalance_missing_account_is_zero demoMissingClient demoSelf
      demoToken).2 ⟨"Unable to execute get method. Got exit_code: -13"⟩ rfl
    have ht : strIncludes "Unable to execute get method. Got exit_code: -13"
        "exit_code: -13" = true := by decide
    rw [hz]
    simp [ht]
  · have hp := (getTokenBalance_missing_account_is_zero demoFailingClient demoSelf
      demoToken).2 ⟨"network timeout"⟩ rfl
    have hf : strIncludes "network timeout" "exit_code: -13" = false := by decide
    rw [hp]
    simp [hf]

/-- Length of the big-endian bit encoding. -/
theorem natToBits_length (v n : Nat) : (natToBits v n).length = n := by
  simp [natToBits]

/-- The big-endian bit encoding of 0 is a run of false bits. -/
theorem natToBits_zero (n : Nat) : natToBits 0 n = List.replicate n false := by
  simp [natToBits, Nat.zero_testBit]

/-- C9 counterexample: two token transfers issued in succession from the
same account, with different recipients and amounts, receive identical
64-bit query ids (the all-zero bit string): the query ids always
collide. -/
theorem tokenTransfer_queryIds_collide_cex :
    Except.map (fun m => (m.body.bits.drop 32).take 64)
        (WalletAccountReadOnlyTon._getTokenTransferMessage demoClient demoSelf demoOptions) =
      Except.map (fun m => (m.body.bits.drop 32).take 64)
        (WalletAccountReadOnlyTon._getTokenTransferMessage demoClient demoSelf demoOptions2) ∧
    Except.map (fun m => (m.body.bits.drop 32).take 64)
        (WalletAccountReadOnlyTon._getTokenTransferMessage demoClient demoSelf demoOptions) =
      .ok (List.replicate 64 false) := by
  have key : ∀ opts : TransferOptions,
      Except.map (fun m => (m.body.bits.drop 32).take 64)
        (WalletAccountReadOnlyTon._getTokenTransferMessage demoClient demoSelf opts) =
      .ok (List.replicate 64 false) := by
    intro opts
    simp only [WalletAccountReadOnlyTon._getTokenTransferMessage,
      WalletAccountReadOnlyTon._getJettonWalletAddress, demoClient, internal, beginCell,
      Builder.storeUint, Builder.storeCoins, Builder.storeAddress, Builder.storeBit,
      Builder.storeMaybeRef, Builder.endCell, Cell.bits, Except.map, List.append_assoc,
      List.nil_append]
    rw [List.drop_left' (natToBits_length 0x0f8a7ea5 32),
      List.take_left' (natToBits_length 0 64), natToBits_zero]
  exact ⟨(key demoOptions).trans (key demoOptions2).symm, key demoOptions⟩

/-- C9 amended: the 64-bit query-id field of every token-transfer body is
the constant 0 (the source stores a zero literal, not a generated random
value), so any two transfers from the same account carry colliding query
ids. -/
theorem tokenTransfer_queryId_always_zero
    (client : TonClient) (self : Address) (options : TransferOptions) (m : MessageRelaxed)
    (hm : WalletAccountReadOnlyTon._getTokenTransferMessage client self options = .ok m) :
    (m.body.bits.drop 32).take 64 = List.replicate 64 false := by
  rcases hjw : WalletAccountReadOnlyTon._getJettonWalletAddress client self options.token
    with e | jw
  · simp [WalletAccountReadOnlyTon._getTokenTransferMessage, hjw] at hm
  · simp [WalletAccountReadOnlyTon._getTokenTransferMessage, hjw] at hm
    subst hm
    simp only [internal, beginCell, Builder.storeUint, Builder.storeCoins,
      Builder.storeAddress, Builder.storeBit, Builder.storeMaybeRef, Builder.endCell,
      Cell.bits, List.append_assoc, List.nil_append]
    rw [List.drop_left' (natToBits_length 0x0f8a7ea5 32),
      List.take_left' (natToBits_length 0 64), natToBits_zero]

/-- Witness for the amended C9 at the concrete scenario. -/
theorem tokenTransfer_queryId_always_zero_witness :
    (demoTokenBody.bits.drop 32).take 64 = List.replicate 64 false :=
  tokenTransfer_queryId_always_zero demoClient demoSelf demoOptions
    (internal demoJetton DUMMY_MESSAGE_VALUE true demoTokenBody) rfl

/-- C10: the native-transfer builder and the token-transfer builder only
produce internal messages, so every successful sendTransaction and every
successful transfer returns the hash of the message body cell alone; the
external-in reconstruction branch of the canonical hash is unreachable
from these two operations. -/
theorem transfer_builders_internal_hash_is_body
    (client : TonClient) (acct : AccountState) (tx : TonTransaction)
    (options : TransferOptions) :
    (WalletAccountReadOnlyTon._getTransactionMessage tx).info.type = .internal ∧
    (∀ cfg r s, WalletAccountTon.sendTransaction cfg (some client) acct tx = (.ok r, s) →
        r.hash = (WalletAccountReadOnlyTon._getTransactionMessage tx).body.cellHash) ∧
    (∀ m, WalletAccountReadOnlyTon._getTokenTransferMessage client acct.walletAddress options =
        .ok m →
      m.info.type = .internal ∧
      ∀ cfg r s, WalletAccountTon.transfer cfg (some client) acct options = (.ok r, s) →
        r.hash = m.body.cellHash) := by
  refine ⟨rfl, ?_, ?_⟩
  · intro cfg r s hsend
    rcases henv : WalletAccountTon._getTransfer client acct
        (WalletAccountReadOnlyTon._getTransactionMessage tx) with e | envelope
    · simp [WalletAccountTon.sendTransaction, henv] at hsend
    · simp [WalletAccountTon.sendTransaction, henv] at hsend
      rw [← hsend.1]
      simp [WalletAccountTon._getMessageHash, WalletAccountReadOnlyTon._getTransactionMessage,
        internal]
  · intro m hm
    have htype : m.info.type = .internal := by
      rcases hjw : WalletAccountReadOnlyTon._getJettonWalletAddress client acct.walletAddress
          options.token with e | jw
      · simp [WalletAccountReadOnlyTon._getTokenTransferMessage, hjw] at hm
      · simp [WalletAccountReadOnlyTon._getTokenTransferMessage, hjw] at hm
        subst hm
        rfl
    refine ⟨htype, ?_⟩
    intro cfg r s htr
    rcases henv : WalletAccountTon._getTransfer client acct m with e | envelope
    · simp [WalletAccountTon.transfer, hm, henv] at htr
    · rcases hcap : cfg.transferMaxFee with _ | cap
      · simp [WalletAccountTon.transfer, hm, henv, hcap] at htr
        rw [← htr.1]
        simp [WalletAccountTon._getMessageHash, htype]
      · by_cases hge :
          WalletAccountReadOnlyTon._getTransferFee client acct.walletAddress envelope ≥ cap
        · simp [WalletAccountTon.transfer, hm, henv, hcap, hge] at htr
        · simp [WalletAccountTon.transfer, hm, henv, hcap, hge] at htr
          rw [← htr.1]
          simp [WalletAccountTon._getMessageHash, htype]

/-- Witness for C10 at the concrete scenario: a successful native send
and a successful token transfer, both hashing the body cell alone. -/
theorem transfer_builders_internal_hash_is_body_witness :
    (WalletAccountReadOnlyTon._getTransactionMessage demoTx).info.type = MsgType.internal ∧
    CellHash.mk transferCommentCell =
      (WalletAccountReadOnlyTon._getTransactionMessage demoTx).body.cellHash ∧
    CellHash.mk demoTokenBody =
      (internal demoJetton DUMMY_MESSAGE_VALUE true demoTokenBody).body.cellHash :=
  ⟨(transfer_builders_internal_hash_is_body demoClient demoAcct demoTx demoOptions).1,
   (transfer_builders_internal_hash_is_body demoClient demoAcct demoTx demoOptions).2.1
     ⟨none⟩ ⟨CellHash.mk transferCommentCell, 10⟩ [Cell.EMPTY] rfl,
   ((transfer_builders_internal_hash_is_body demoClient demoAcct demoTx demoOptions).2.2
     (internal demoJetton DUMMY_MESSAGE_VALUE true demoTokenBody) rfl).2
     ⟨none⟩ ⟨CellHash.mk demoTokenBody, 10⟩ [Cell.EMPTY] rfl⟩
